import Mathlib

/-!
Verification of the privacy-preserving data systems repository.

Shallow embedding conventions:
- Python `float` values are modelled as `ℚ` (exact rational arithmetic); Python
  `int` as `ℤ` (or `ℕ` for lengths).
- Python dictionaries with a fixed key type are modelled as total functions or
  association lists, matching how each call site uses them.
- Fallible Python code (raising exceptions) is modelled with `Except String`.
- `x ** 0.5` on integer inputs is modelled by `float_sqrt`, a fixed-precision
  rational approximation of the square root; no theorem below depends on the
  values this function produces, only on the call structure around it.
-/

namespace PPDS

/-- Models `_clamp01` from `src/ppds/lps/core.py` (and `clamp01` from
`example_code.py`): `max(0.0, min(1.0, x))`. -/
def clamp01 (x : ℚ) : ℚ := max 0 (min 1 x)

/-- Models Python `n ** 0.5` applied to an integer, as used for `ndv_hint` and
`cardinality_hint`. A rational approximation with 6 decimal digits; the exact
value is irrelevant to every theorem in this file. -/
def float_sqrt (n : ℤ) : ℚ := (Nat.sqrt (n.toNat * 10 ^ 12) : ℚ) / 10 ^ 6

/-! ## `src/ppds/types.py` -/

/-- Enum `Boundary` from `src/ppds/types.py`. -/
inductive Boundary
  | LOCAL
  | SHUFFLE
  | CENTRAL
deriving DecidableEq

/-- The `.value` string of a `Boundary` member. -/
def Boundary.value : Boundary → String
  | .LOCAL => "LOCAL"
  | .SHUFFLE => "SHUFFLE"
  | .CENTRAL => "CENTRAL"

/-- Enum `Granularity` from `src/ppds/types.py`. -/
inductive Granularity
  | ITEM
  | CLUSTER
  | AGGREGATE
deriving DecidableEq

/-- The `.value` string of a `Granularity` member. -/
def Granularity.value : Granularity → String
  | .ITEM => "ITEM"
  | .CLUSTER => "CLUSTER"
  | .AGGREGATE => "AGGREGATE"

/-- Dataclass `FieldSpec` from `src/ppds/types.py`. -/
structure FieldSpec where
  name : String
  dtype : String
  is_sensitive : Bool := false
  is_identifier : Bool := false
  cardinality_hint : Option ℤ := none
deriving DecidableEq

/-- Dataclass `JoinKeySpec` from `src/ppds/types.py`. -/
structure JoinKeySpec where
  name : String
  stability : ℚ
  ndv_hint : Option ℤ := none
deriving DecidableEq

/-- Dataclass `FeatureSpec` from `src/ppds/types.py`.  The dictionaries
`bucketizations` (field name → bucket count) and `support_hint`
(granularity → optional support) are modelled as functions, matching the
`.get` lookups performed on them. -/
structure FeatureSpec where
  feature_id : String
  description : String
  fields : List FieldSpec
  join_keys : List JoinKeySpec := []
  ttl_days : ℤ := 30
  bucketizations : String → Option ℤ := fun _ => none
  privacy_unit : String := "user"
  policy_tags : List String := []
  support_hint : Granularity → Option ℤ := fun _ => none

/-- Dataclass `PolicyThresholds` from `src/ppds/types.py`.  Note that the
source dataclass declares no `__post_init__` and performs no validation of
any kind: construction always succeeds and stores the arguments unchanged. -/
structure PolicyThresholds where
  tau_boundary : Boundary → ℚ
  tau_granularity : Granularity → ℚ
  k_min : ℤ := 100
  alpha_L : ℚ := 0.30
  alpha_U : ℚ := 0.35
  alpha_I : ℚ := 0.25
  alpha_R : ℚ := 0.10

/-- The generated `__init__` of the frozen dataclass `PolicyThresholds`:
a total constructor that stores its arguments without checks. -/
def mkPolicyThresholds (tb : Boundary → ℚ) (tg : Granularity → ℚ) (k : ℤ)
    (aL aU aI aR : ℚ) : PolicyThresholds :=
  ⟨tb, tg, k, aL, aU, aI, aR⟩

/-- Dataclass `Scorecard` from `src/ppds/types.py`. The `contributors` dict
(component name → ordered contribution list) is modelled as an association
list in insertion order. -/
structure Scorecard where
  L : ℚ
  U : ℚ
  I : ℚ
  R : ℚ
  risk : ℚ
  contributors : List (String × List (String × ℚ))
deriving DecidableEq

/-- Dataclass `Decision` from `src/ppds/types.py`.  Its only fields are
`boundary`, `granularity`, `feasible`, `scorecard`, `reason` — in particular
it has no `planner_constraint` or `planner_constraints_json` field. -/
structure Decision where
  boundary : Boundary
  granularity : Granularity
  feasible : Bool
  scorecard : Scorecard
  reason : String
deriving DecidableEq

/-! ## `src/ppds/lps/core.py` -/

/-- The per-join-key contribution computed inside `compute_linkability`:
`0.8 * clamp01(stability) + 0.2 * clamp01(ndv_factor)` where `ndv_factor`
is `min(1.0, sqrt(ndv_hint) / 1000.0)` when `ndv_hint` is present and
positive, else `0.0`. -/
def jk_contribution (jk : JoinKeySpec) : ℚ :=
  let ndv_factor : ℚ :=
    match jk.ndv_hint with
    | some n => if n > 0 then min 1 (float_sqrt n / 1000) else 0
    | none => 0
  0.8 * clamp01 jk.stability + 0.2 * clamp01 ndv_factor

/-- `compute_linkability` from `src/ppds/lps/core.py`. -/
def compute_linkability (feature : FeatureSpec) : ℚ × List (String × ℚ) :=
  match feature.join_keys with
  | [] => (0, [])
  | jks =>
    let contrib := jks.map fun jk => (jk.name, jk_contribution jk)
    let total := (jks.map jk_contribution).sum
    let ttl_factor := clamp01 ((feature.ttl_days : ℚ) / 90)
    let L := clamp01 ((total / max 1 (jks.length : ℚ)) * (0.7 + 0.3 * ttl_factor))
    (L, contrib)

/-- The cold-start per-field sparsity contribution inside `compute_uniqueness`. -/
def uniq_field_contribution (feature : FeatureSpec) (f : FieldSpec) : ℚ :=
  if f.is_identifier then 1
  else
    match feature.bucketizations f.name with
    | some buckets => clamp01 ((buckets : ℚ) / 200)
    | none =>
      match f.cardinality_hint with
      | some ch => clamp01 (float_sqrt ch / 200)
      | none => 0.15

/-- `compute_uniqueness` from `src/ppds/lps/core.py`. -/
def compute_uniqueness (feature : FeatureSpec) (g : Granularity) (k_min : ℤ) :
    ℚ × List (String × ℚ) :=
  let cold_start : ℚ × List (String × ℚ) :=
    let contrib := feature.fields.map fun f => (f.name, uniq_field_contribution feature f)
    let pressure := (feature.fields.map (uniq_field_contribution feature)).sum
    let g_factor : ℚ :=
      match g with
      | .ITEM => 1
      | .CLUSTER => 0.6
      | .AGGREGATE => 0.25
    let U := clamp01 ((pressure / max 1 (feature.fields.length : ℚ)) * g_factor)
    (U, contrib)
  match feature.support_hint g with
  | some support =>
    if support > 0 then
      let ratio : ℚ := (support : ℚ) / (k_min : ℚ)
      let U := clamp01 (1 / max 1 ratio)
      (U, [("support_hint", U)])
    else cold_start
  | none => cold_start

/-- The per-sensitive-field contribution inside `compute_inferability`:
`0.25`, or `clamp01(0.15 + buckets / 500.0)` when a bucket count is declared. -/
def infer_field_contribution (feature : FeatureSpec) (f : FieldSpec) : ℚ :=
  match feature.bucketizations f.name with
  | some buckets => clamp01 (0.15 + (buckets : ℚ) / 500)
  | none => 0.25

/-- `compute_inferability` from `src/ppds/lps/core.py`. -/
def compute_inferability (feature : FeatureSpec) : ℚ × List (String × ℚ) :=
  let sens := feature.fields.filter fun f => f.is_sensitive
  match sens with
  | [] => (0.05, [("no_sensitive_declared", 0.05)])
  | _ =>
    let base0 : ℚ := 0.15 + 0.12 * ((min 5 sens.length : ℕ) : ℚ)
    let contrib := sens.map fun f => (f.name, infer_field_contribution feature f)
    let base := base0 + (sens.map fun f => 0.05 * infer_field_contribution feature f).sum
    let jk_amp : ℚ :=
      match feature.join_keys with
      | [] => 0
      | jks => 0.15 * clamp01 ((jks.map JoinKeySpec.stability).sum / (jks.length : ℚ))
    (clamp01 (base + jk_amp), contrib)

/-- The `tag_weights` table of `compute_policy_penalty`, with the `0.10`
default for unrecognized tags. -/
def tag_weight (t : String) : ℚ :=
  if t = "health" then 0.50
  else if t = "precise_location" then 0.45
  else if t = "financial" then 0.40
  else if t = "children" then 0.60
  else if t = "age" then 0.20
  else if t = "gender" then 0.15
  else if t = "location" then 0.20
  else 0.10

/-- `compute_policy_penalty` from `src/ppds/lps/core.py`. -/
def compute_policy_penalty (feature : FeatureSpec) : ℚ × List (String × ℚ) :=
  let contrib := feature.policy_tags.map fun t => (t, tag_weight t)
  let penalty := (feature.policy_tags.map tag_weight).sum
  (clamp01 penalty, contrib)

/-- `compute_scorecard` from `src/ppds/lps/core.py`. -/
def compute_scorecard (feature : FeatureSpec) (g : Granularity) (th : PolicyThresholds) :
    Scorecard :=
  let L := compute_linkability feature
  let U := compute_uniqueness feature g th.k_min
  let I := compute_inferability feature
  let R := compute_policy_penalty feature
  let risk := clamp01 (th.alpha_L * L.1 + th.alpha_U * U.1 + th.alpha_I * I.1 + th.alpha_R * R.1)
  ⟨L.1, U.1, I.1, R.1, risk, [("L", L.2), ("U", U.2), ("I", I.2), ("R", R.2)]⟩

/-- `feasible_boundary` from `src/ppds/lps/core.py`: `score.risk <= th.tau_boundary[b]`. -/
def feasible_boundary (score : Scorecard) (b : Boundary) (th : PolicyThresholds) : Bool :=
  score.risk ≤ th.tau_boundary b

/-- `feasible_granularity` from `src/ppds/lps/core.py`:
`score.risk <= th.tau_granularity[g]`. -/
def feasible_granularity (score : Scorecard) (g : Granularity) (th : PolicyThresholds) : Bool :=
  score.risk ≤ th.tau_granularity g

/-! ## `src/ppds/planner.py` -/

/-- The `KeyList` type alias of `src/ppds/planner.py`: `list[str]` or the
wildcard string `"*"`. -/
inductive KeyList
  | ofList (ks : List String)
  | ofStr (s : String)
deriving DecidableEq

/-- Dataclass `PlannerConstraint` from `src/ppds/planner.py`. -/
structure PlannerConstraint where
  boundary : String
  granularity : String
  forbid_group_by_keys : KeyList
  forbid_joins_on : KeyList
  min_group_cardinality : ℤ
  require_pre_aggregation : Bool
deriving DecidableEq

/-- `compile_to_planner_constraints` from `src/ppds/planner.py`. -/
def compile_to_planner_constraints (feature : FeatureSpec) (decision : Decision)
    (th : PolicyThresholds) : PlannerConstraint :=
  let g := decision.granularity
  let b := decision.boundary
  let item_level_keys := (feature.fields.filter fun f => f.is_identifier).map FieldSpec.name
  let join_keys := feature.join_keys.map JoinKeySpec.name
  let k_min := th.k_min
  match g with
  | .ITEM =>
    ⟨b.value, g.value, .ofList [], .ofList [], 1, false⟩
  | .CLUSTER =>
    ⟨b.value, g.value, .ofList item_level_keys, .ofList join_keys, max k_min 2, true⟩
  | .AGGREGATE =>
    ⟨b.value, g.value, .ofStr "*", .ofStr "*", max k_min 2, true⟩

/-- The exception raised by `_attach_planner_constraints`. -/
def attachTypeError : String :=
  "TypeError: replace of Decision got unexpected keyword argument planner_constraint"

/-- Models `_attach_planner_constraints` from `src/ppds/planner.py`.  The
source calls `dataclasses.replace(dec, planner_constraint=pc,
planner_constraints_json=payload)`; since the frozen dataclass `Decision`
in `src/ppds/types.py` declares neither field, `replace` (which forwards
unknown keyword arguments to `Decision.__init__`) raises `TypeError` on
every call.  The commented-out fallback in the source would have caught this
`TypeError`, but the live code does not. -/
def attach_planner_constraints (dec : Decision) (pc : PlannerConstraint) :
    Except String Decision :=
  let _ := dec
  let _ := pc
  .error attachTypeError

namespace Planner

/-- The boundary preference order `CENTRAL -> SHUFFLE -> LOCAL` from `decide`. -/
def boundary_order : List Boundary := [.CENTRAL, .SHUFFLE, .LOCAL]

/-- The granularity order `ITEM -> CLUSTER -> AGGREGATE` from `decide`. -/
def gran_order : List Granularity := [.ITEM, .CLUSTER, .AGGREGATE]

/-- The nested iteration order of `decide`: boundary-major enumeration of the
nine (boundary, granularity) cells. -/
def cellOrder : List (Boundary × Granularity) :=
  boundary_order.flatMap fun b => gran_order.map fun g => (b, g)

/-- The acceptance test applied to each cell in the `decide` loop:
`feasible_boundary(sc, b, th) and feasible_granularity(sc, g, th)` where
`sc = compute_scorecard(feature, g, th)`. -/
def cellFeasible (feature : FeatureSpec) (th : PolicyThresholds)
    (c : Boundary × Granularity) : Bool :=
  let sc := compute_scorecard feature c.2 th
  feasible_boundary sc c.1 th && feasible_granularity sc c.2 th

/-- The selection loop of `decide` from `src/ppds/planner.py`, i.e. the
`Decision` value `dec` constructed before `_attach_planner_constraints` is
called.  The loop returns at the first cell (in `cellOrder`) passing
`cellFeasible`.  Its `best` accumulator (`best = best or (b, g, sc)`) is
assigned on the first iteration — the cell `(CENTRAL, ITEM)` — and never
reassigned, so the infeasible fallback carries the scorecard computed at
granularity `ITEM`. -/
def decide_select (feature : FeatureSpec) (th : PolicyThresholds) : Decision :=
  match cellOrder.find? (cellFeasible feature th) with
  | some (b, g) =>
    ⟨b, g, true, compute_scorecard feature g th, "feasible"⟩
  | none =>
    ⟨.LOCAL, .AGGREGATE, false, compute_scorecard feature .ITEM th,
      "no_feasible_option_under_thresholds"⟩

/-- `decide` from `src/ppds/planner.py`.  Both the feasible and the
infeasible branch end with `_attach_planner_constraints(dec, pc)`, which
raises `TypeError` (see `attach_planner_constraints`); the result is
therefore an error on every input. -/
def decide (feature : FeatureSpec) (th : PolicyThresholds) : Except String Decision :=
  let dec := decide_select feature th
  let pc := compile_to_planner_constraints feature dec th
  attach_planner_constraints dec pc

end Planner

/-! ## `src/ppds/budget.py`

Calendar dates are modelled as integer day numbers, so `date` subtraction and
`timedelta(days=n)` become integer arithmetic. -/

/-- Dataclass `SpendEvent` from `src/ppds/budget.py`. -/
structure SpendEvent where
  feature_id : String
  day : ℤ
  epsilon : ℚ
  delta : ℚ := 0
deriving DecidableEq

/-- `BudgetLedger` state from `src/ppds/budget.py`: the per-feature dict of
event lists is modelled as the single append-only list of committed events
(the per-feature list is recovered by filtering on `feature_id`, which
preserves the insertion order of `commit`). -/
structure BudgetLedger where
  events : List SpendEvent := []
deriving DecidableEq

/-- `BudgetLedger.commit`: append the event. -/
def BudgetLedger.commit (ledger : BudgetLedger) (event : SpendEvent) : BudgetLedger :=
  ⟨ledger.events ++ [event]⟩

/-- `BudgetLedger.window_spend` from `src/ppds/budget.py`: the loop over the
events of `feature_id`, accumulating `epsilon` and `delta` for events with
`start <= e.day <= asof` where `start = asof - timedelta(days=window_days - 1)`. -/
def BudgetLedger.window_spend (ledger : BudgetLedger) (feature_id : String)
    (window_days : ℤ) (asof : ℤ) : ℚ × ℚ :=
  let start := asof - (window_days - 1)
  ledger.events.foldl
    (fun acc e =>
      if e.feature_id = feature_id ∧ start ≤ e.day ∧ e.day ≤ asof then
        (acc.1 + e.epsilon, acc.2 + e.delta)
      else acc)
    (0, 0)

/-- `BudgetLedger.can_spend` from `src/ppds/budget.py`. -/
def BudgetLedger.can_spend (ledger : BudgetLedger) (feature_id : String)
    (window_days : ℤ) (asof : ℤ) (eps_cap delta_cap next_eps next_delta : ℚ) : Bool :=
  let spend := ledger.window_spend feature_id window_days asof
  spend.1 + next_eps ≤ eps_cap ∧ spend.2 + next_delta ≤ delta_cap

/-- `BudgetLedger.adaptive_eps` from `src/ppds/budget.py`. -/
def BudgetLedger.adaptive_eps (ledger : BudgetLedger) (feature_id : String)
    (window_days : ℤ) (asof : ℤ) (eps_cap : ℚ) (planned_releases_left : ℤ) : ℚ :=
  let eps := (ledger.window_spend feature_id window_days asof).1
  let remain := max 0 (eps_cap - eps)
  if planned_releases_left ≤ 0 then 0
  else remain / (planned_releases_left : ℚ)

/-! ## JSON values

A model of the JSON-serializable Python values handled by
`src/ppds/plan_contract.py` and `src/ppds/policy_gate.py`.  Python `bool`,
`int` and `float` are distinguished (the gate canonicalization preserves
bools and ints but rounds floats).  A dict is an association list in
insertion order; serialization with `sort_keys=True` sorts it. -/

inductive Json
  | null
  | bool (b : Bool)
  | int (z : ℤ)
  | num (q : ℚ)
  | str (s : String)
  | arr (xs : List Json)
  | obj (kvs : List (String × Json))

/-- Sorting an association list by key, as `json.dumps(..., sort_keys=True)`
does for each object level. -/
def sortKVs (kvs : List (String × Json)) : List (String × Json) :=
  kvs.mergeSort fun a b => a.1 ≤ b.1

mutual

/-- Recursively sort every object level of a JSON value by key; composing
this with the plain renderer below models `json.dumps(obj, sort_keys=True)`. -/
def canonicalizeJson : Json → Json
  | .null => .null
  | .bool b => .bool b
  | .int z => .int z
  | .num q => .num q
  | .str s => .str s
  | .arr xs => .arr (canonicalizeList xs)
  | .obj kvs => .obj (sortKVs (canonicalizeKVs kvs))

/-- Helper of `canonicalizeJson` for array elements. -/
def canonicalizeList : List Json → List Json
  | [] => []
  | x :: xs => canonicalizeJson x :: canonicalizeList xs

/-- Helper of `canonicalizeJson` for object entries. -/
def canonicalizeKVs : List (String × Json) → List (String × Json)
  | [] => []
  | (k, v) :: kvs => (k, canonicalizeJson v) :: canonicalizeKVs kvs

end

mutual

/-- Render a JSON value with the compact separators `(",", ":")` of
`_canonical_json_bytes`.  Key order is rendered as given; the caller sorts
via `canonicalizeJson` first.  The rendering of leaves stands in for the
exact Python token text; every theorem below uses only that it is a
function of the value. -/
def Json.render : Json → String
  | .null => "null"
  | .bool b => if b then "true" else "false"
  | .int z => toString z
  | .num q => toString q
  | .str s => "\"" ++ s ++ "\""
  | .arr xs => "[" ++ Json.renderList xs ++ "]"
  | .obj kvs => "\x7b" ++ Json.renderKVs kvs ++ "\x7d"

/-- Comma-joined rendering of array elements. -/
def Json.renderList : List Json → String
  | [] => ""
  | [x] => Json.render x
  | x :: xs => Json.render x ++ "," ++ Json.renderList xs

/-- Comma-joined rendering of object entries as `"key":value`. -/
def Json.renderKVs : List (String × Json) → String
  | [] => ""
  | [(k, v)] => "\"" ++ k ++ "\":" ++ Json.render v
  | (k, v) :: kvs => "\"" ++ k ++ "\":" ++ Json.render v ++ "," ++ Json.renderKVs kvs

end

/-! ## `src/ppds/plan_contract.py` -/

/-- Models `hashlib.sha256(...).hexdigest()`: an opaque, deterministic digest
of the input text.  The development relies only on it being a function of
its input, so the digest arithmetic here is a stand-in for SHA-256. -/
def sha256Hex (s : String) : String :=
  toString ((s.data.map Char.toNat).foldl (fun h c => (h * 131 + c) % 2 ^ 64) 5381)

/-- `_canonical_json_bytes` from `src/ppds/plan_contract.py`:
`json.dumps(obj, sort_keys=True, separators=(",", ":"))`. -/
def canonical_json_bytes (obj : Json) : String :=
  (canonicalizeJson obj).render

/-- `_sha256_hex_obj` from `src/ppds/plan_contract.py`. -/
def sha256_hex_obj (obj : Json) : String :=
  sha256Hex (canonical_json_bytes obj)

/-- `compute_input_fingerprint` from `src/ppds/plan_contract.py`. -/
def compute_input_fingerprint (input_obj : Json) : String :=
  sha256_hex_obj input_obj

/-- Models `dict.pop(k, None)` on an association list: remove the binding of
`k` (a Python dict holds at most one). -/
def popKey (kvs : List (String × Json)) (k : String) : List (String × Json) :=
  kvs.filter fun kv => kv.1 ≠ k

/-- `compute_plan_fingerprint` from `src/ppds/plan_contract.py`: hash the
plan object with the `plan_fingerprint` and `created_at` keys removed.  The
plan object is given by its top-level association list. -/
def compute_plan_fingerprint (plan_obj : List (String × Json)) : String :=
  let tmp := popKey (popKey plan_obj "plan_fingerprint") "created_at"
  sha256_hex_obj (.obj tmp)

/-! ## `src/ppds/policy_gate.py` -/

/-- The `EXIT_ALLOW` constant. -/
def EXIT_ALLOW : ℤ := 0

/-- The `EXIT_REJECT` constant. -/
def EXIT_REJECT : ℤ := 2

/-- Dataclass `RejectionReason` from `src/ppds/policy_gate.py`. -/
structure RejectionReason where
  code : String
  message : String
  details : Json

/-- Dataclass `GateDecision` from `src/ppds/policy_gate.py`. -/
structure GateDecision where
  decision : String
  exit_code : ℤ
  policy : Json
  lps : Json
  reasons : List RejectionReason

/-- Python `round(x, 8)` (banker's rounding, i.e. round-half-to-even) on the
rational model of a float. -/
def roundFloat8 (q : ℚ) : ℚ :=
  let y : ℚ := q * 10 ^ 8
  let f : ℤ := ⌊y⌋
  let frac : ℚ := y - (f : ℚ)
  let r : ℤ :=
    if frac > 1 / 2 then f + 1
    else if frac < 1 / 2 then f
    else if f % 2 = 0 then f else f + 1
  (r : ℚ) / 10 ^ 8

mutual

/-- `canonicalize` from `src/ppds/policy_gate.py` restricted to JSON values:
bools, ints and strings are preserved, floats are rounded to
`float_ndigits = 8` digits, lists keep their order, and dict keys are
sorted. -/
def Gate.canonicalize : Json → Json
  | .null => .null
  | .bool b => .bool b
  | .int z => .int z
  | .num q => .num (roundFloat8 q)
  | .str s => .str s
  | .arr xs => .arr (Gate.canonicalizeList xs)
  | .obj kvs => .obj (sortKVs (Gate.canonicalizeKVs kvs))

/-- Helper of `Gate.canonicalize` for list elements. -/
def Gate.canonicalizeList : List Json → List Json
  | [] => []
  | x :: xs => Gate.canonicalize x :: Gate.canonicalizeList xs

/-- Helper of `Gate.canonicalize` for dict entries. -/
def Gate.canonicalizeKVs : List (String × Json) → List (String × Json)
  | [] => []
  | (k, v) :: kvs => (k, Gate.canonicalize v) :: Gate.canonicalizeKVs kvs

end

/-- `evaluate_policy_gate` from `src/ppds/policy_gate.py`.  The scoring
callback `compute_lps_fn` is modelled as returning `Except String (ℚ × Json)`;
an `Except.error` models an exception raised during scoring (or during the
conversion of its result), which the `try/except` block turns into the
fail-closed REJECT branch.  Note the threshold comparison uses the
canonicalized (rounded) score, as the source compares
`lps_meta["score"] > effective_threshold`. -/
def evaluate_policy_gate (policy_path : String) (policy_bytes : String)
    (policy_threshold : ℚ) (input_payload : Json)
    (compute_lps_fn : Json → Except String (ℚ × Json))
    (threshold_override : Option ℚ) (hard_reject : Bool) : GateDecision :=
  let effective_threshold :=
    match threshold_override with
    | some t => t
    | none => policy_threshold
  let policy_hash := sha256Hex policy_bytes
  let policy_meta := Gate.canonicalize (.obj
    [("path", .str policy_path),
     ("sha256", .str policy_hash),
     ("threshold_policy", .num policy_threshold),
     ("threshold_effective", .num effective_threshold),
     ("hard_reject", .bool hard_reject)])
  match compute_lps_fn input_payload with
  | .ok (lps_score, breakdown) =>
    let lps_meta := Gate.canonicalize (.obj
      [("score", .num lps_score), ("breakdown", breakdown)])
    let violated := roundFloat8 lps_score > effective_threshold
    if violated then
      let reasons := [RejectionReason.mk "LPS_THRESHOLD_EXCEEDED"
        "Input violates LPS threshold."
        (.obj
          [("lps_score", .num (roundFloat8 lps_score)),
           ("threshold_effective", .num effective_threshold),
           ("threshold_policy", .num policy_threshold),
           ("threshold_override",
             match threshold_override with
             | some t => .num t
             | none => .null)])]
      ⟨if hard_reject then "REJECT" else "ALLOW",
       if hard_reject then EXIT_REJECT else EXIT_ALLOW,
       policy_meta, lps_meta, reasons⟩
    else
      ⟨"ALLOW", EXIT_ALLOW, policy_meta, lps_meta, []⟩
  | .error e =>
    let lps_meta := Gate.canonicalize (.obj [("score", .null), ("breakdown", .null)])
    let reasons := [RejectionReason.mk "EVALUATION_ERROR"
      "Policy gate evaluation failed; failing closed."
      (.obj [("error", .str e)])]
    ⟨"REJECT", EXIT_REJECT, policy_meta, lps_meta, reasons⟩

end PPDS

namespace ExampleCode

/-! ## `example_code.py`

Boundaries and granularities are plain strings in this module, as in the
source.  The SQLite tables of `Store` are modelled as lists of rows; rows
appended by `INSERT` go to the end of the list. -/

open PPDS (Json clamp01)

/-- The `GRAN_ORDER` dict from `example_code.py`.  The dict holds exactly the
three granularity strings; call sites only ever pass those, so the catch-all
branch is arbitrary. -/
def GRAN_ORDER : String → ℤ
  | "ITEM" => 0
  | "CLUSTER" => 1
  | "AGGREGATE" => 2
  | _ => 0

/-- `g_at_least` from `example_code.py`. -/
def g_at_least (g min_g : String) : Bool :=
  GRAN_ORDER min_g ≤ GRAN_ORDER g

/-- Dataclass `FeatureDef` from `example_code.py`.  The Python `Set[str]`
fields are modelled as `Finset String`. -/
structure FeatureDef where
  feature_id : String
  feature_version : String
  owner : String
  query_type : String
  join_keys : List String
  retention_days : ℤ
  sensitivity_tags : Finset String
  boundary_capabilities : Finset String
  granularity_candidates : Finset String

/-- Dataclass `PolicyConfig` from `example_code.py`. -/
structure PolicyConfig where
  policy_version : String
  w_link : ℚ
  w_uniq : ℚ
  w_infer : ℚ
  w_policy : ℚ
  a_id : ℚ
  a_join : ℚ
  a_ttl : ℚ
  deg_max : ℤ
  retention_days_max : ℤ
  band_mid : ℚ
  band_high : ℚ
  min_support_floor : ℤ
  distinct_drift_threshold : ℤ
  infer_default : ℚ
  infer_high : ℚ
  tau_lps : ℚ
  central_sigma : ℚ
  min_support_threshold : ℤ

/-- The `hard` constraint structure built by `Controller._compute_policy_penalty`:
`{"deny_boundaries": set(), "min_granularity": None}`. -/
structure HardRules where
  deny_boundaries : Finset String
  min_granularity : Option String
deriving DecidableEq

/-- `Controller._compute_policy_penalty` from `example_code.py`: returns the
soft penalty score, the reason codes, and the hard rules.  `precise_location`
adds `CENTRAL` to the denied boundaries; `demographics` sets the minimum
granularity to `CLUSTER` (it is `None` beforehand). -/
def compute_policy_penalty_hard (f : FeatureDef) : ℚ × List String × HardRules :=
  let hard0 : HardRules := ⟨∅, none⟩
  let step1 :=
    if "precise_location" ∈ f.sensitivity_tags then
      (⟨insert "CENTRAL" hard0.deny_boundaries, hard0.min_granularity⟩,
        ["POLICY_DENY:CENTRAL_FOR_PRECISE_LOCATION"])
    else (hard0, ([] : List String))
  let step2 :=
    if "demographics" ∈ f.sensitivity_tags then
      (⟨step1.1.deny_boundaries,
         match step1.1.min_granularity with
         | none => some "CLUSTER"
         | some m => some m⟩,
        step1.2 ++ ["POLICY_MIN_GRANULARITY:CLUSTER_FOR_DEMOGRAPHICS"])
    else step1
  let s : ℚ := if f.sensitivity_tags ≠ ∅ then 0.5 else 0
  let rcs :=
    if f.sensitivity_tags ≠ ∅ then step2.2 ++ ["POLICY_SOFT_PENALTY:SENSITIVE_TAG_PRESENT"]
    else step2.2
  (s, rcs, step2.1)

/-- `Controller._derive_admissible_set` from `example_code.py`: the base
candidates `boundary_capabilities x granularity_candidates`, minus
hard-denied boundaries, restricted to granularities at least the minimum
granularity (hard rule first, else risk bands). -/
def derive_admissible_set (policy : PolicyConfig) (f : FeatureDef)
    (lps_total : ℚ) (hard : HardRules) : Finset (String × String) × String :=
  let candidates := f.boundary_capabilities ×ˢ f.granularity_candidates
  let candidates := candidates.filter fun c => c.1 ∉ hard.deny_boundaries
  let min_g :=
    match hard.min_granularity with
    | some m => m
    | none =>
      if lps_total ≥ policy.band_high then "AGGREGATE"
      else if lps_total ≥ policy.band_mid then "CLUSTER"
      else "ITEM"
  let candidates := candidates.filter fun c => g_at_least c.2 min_g
  (candidates, min_g)

/-- The contents of the `dp_parameters` dict: `_persist_routing_decision`
always builds it with exactly the keys `sigma` and `min_support_threshold`,
and the runtime reads it with `.get("sigma", 0.0)` and
`.get("min_support_threshold", 0)`. -/
structure DpParams where
  sigma : ℚ
  min_support_threshold : ℤ
deriving DecidableEq

/-- The `join_policy` dict built by `_persist_routing_decision`. -/
structure JoinPolicy where
  allow_joins : Bool
  join_keys : List String
deriving DecidableEq

/-- The `retention_policy` dict built by `_persist_routing_decision`. -/
structure RetentionPolicy where
  retention_days : ℤ
deriving DecidableEq

/-- Dataclass `RuntimeContract` from `example_code.py`. -/
structure RuntimeContract where
  feature_id : String
  contract_version : String
  boundary : String
  granularity : String
  aggregation_keys : List String
  dp_mechanism : String
  dp_parameters : DpParams
  join_policy : JoinPolicy
  retention_policy : RetentionPolicy
  allow_downgrade_to : List (String × String)
  active : Bool
deriving DecidableEq

/-- A row of the `runtime_contracts` table: primary key
`(feature_id, contract_version)`, the `active` column, and the stored
`payload_json`.  Note the `UPDATE` in `append_runtime_contract` flips only
the `active` column, not the payload. -/
structure ContractRow where
  feature_id : String
  contract_version : String
  active : Bool
  payload : RuntimeContract
deriving DecidableEq

/-- A row of the `runtime_staging` table. -/
structure StageRow where
  boundary : String
  feature_id : String
  granularity : String
  window_id : String
  cell_key : String
  clicks : ℤ
  impressions : ℤ
deriving DecidableEq

/-- A row of the `materialized_features` table. -/
structure MatRow where
  boundary : String
  feature_id : String
  granularity : String
  window_id : String
  cell_key : String
  value : ℚ
  contract_version : String
deriving DecidableEq

/-- A row of the `audit_log` table (the `ts` column, an insertion wall-clock
timestamp never read back by the code under verification, is omitted). -/
structure AuditRow where
  event_type : String
  feature_id : String
  details : Json

/-- The `Store` state from `example_code.py`, restricted to the tables the
verified operations touch. -/
structure Store where
  catalog : List String := []
  contracts : List ContractRow := []
  staging : List StageRow := []
  materialized : List MatRow := []
  audit_log : List AuditRow := []

/-- `Store.audit` from `example_code.py`: append one row to `audit_log`. -/
def Store.audit (s : Store) (event_type feature_id : String) (details : Json) : Store :=
  { s with audit_log := s.audit_log ++ [⟨event_type, feature_id, details⟩] }

/-- `Store.append_runtime_contract` from `example_code.py`:
`INSERT OR REPLACE` on the primary key `(feature_id, contract_version)`
followed by `UPDATE runtime_contracts SET active=0 WHERE feature_id=? AND
contract_version<>?`, then commit — one logical transaction. -/
def Store.append_runtime_contract (s : Store) (c : RuntimeContract) : Store :=
  let inserted :=
    (s.contracts.filter fun r =>
      ¬(r.feature_id = c.feature_id ∧ r.contract_version = c.contract_version))
    ++ [⟨c.feature_id, c.contract_version, c.active, c⟩]
  let updated := inserted.map fun r =>
    if r.feature_id = c.feature_id ∧ r.contract_version ≠ c.contract_version then
      { r with active := false }
    else r
  { s with contracts := updated }

/-- `Store.read_active_contract` from `example_code.py`: the row with this
`feature_id` and `active=1`, ordered by `contract_version DESC`, limit 1. -/
def Store.read_active_contract (s : Store) (feature_id : String) : Option RuntimeContract :=
  let rows := s.contracts.filter fun r => r.feature_id = feature_id ∧ r.active
  let sorted := rows.mergeSort fun a b => b.contract_version ≤ a.contract_version
  sorted.head?.map ContractRow.payload

/-- `Store.stage_event` from `example_code.py`. -/
def Store.stage_event (s : Store) (boundary feature_id granularity window_id cell_key : String)
    (clicks impressions : ℤ) : Store :=
  { s with staging :=
      s.staging ++ [⟨boundary, feature_id, granularity, window_id, cell_key, clicks, impressions⟩] }

/-- `Store.read_staged` from `example_code.py`. -/
def Store.read_staged (s : Store) (boundary feature_id granularity window_id : String) :
    List StageRow :=
  s.staging.filter fun r =>
    r.boundary = boundary ∧ r.feature_id = feature_id ∧
    r.granularity = granularity ∧ r.window_id = window_id

/-- `Store.write_materialized` from `example_code.py`. -/
def Store.write_materialized (s : Store)
    (boundary feature_id granularity window_id cell_key : String)
    (value : ℚ) (contract_version : String) : Store :=
  { s with materialized :=
      s.materialized ++
        [⟨boundary, feature_id, granularity, window_id, cell_key, value, contract_version⟩] }

/-- `GRanularity_downgrades` from `example_code.py`. -/
def GRanularity_downgrades (g : String) : List String :=
  if g = "ITEM" then ["CLUSTER", "AGGREGATE"]
  else if g = "CLUSTER" then ["AGGREGATE"]
  else []

/-- `Runtime.ingest_signal` from `example_code.py`. -/
def ingest_signal (s : Store) (feature_id window_id cell_key : String)
    (clicks impressions : ℤ) : Store :=
  match s.read_active_contract feature_id with
  | none => s.audit "REJECT" feature_id (.obj [("reason", .str "NO_ACTIVE_CONTRACT")])
  | some contract =>
    if clicks < 0 ∨ impressions < 0 ∨ clicks > impressions then
      s.audit "REJECT" feature_id (.obj [("reason", .str "INVALID_EVENT")])
    else
      (s.stage_event contract.boundary feature_id contract.granularity window_id cell_key
          clicks impressions).audit "INGEST" feature_id
        (.obj [("boundary", .str contract.boundary),
               ("granularity", .str contract.granularity),
               ("window_id", .str window_id)])

/-- The `by_cell` aggregation inside `Runtime.materialize`: a dict keyed by
`cell_key` in first-seen order, summing clicks and impressions. -/
def addCell (acc : List (String × ℤ × ℤ)) (r : StageRow) : List (String × ℤ × ℤ) :=
  if (acc.find? fun e => e.1 = r.cell_key).isSome then
    acc.map fun e =>
      if e.1 = r.cell_key then (e.1, e.2.1 + r.clicks, e.2.2 + r.impressions) else e
  else acc ++ [(r.cell_key, r.clicks, r.impressions)]

/-- Aggregate staged rows by `cell_key`. -/
def aggregateCells (rows : List StageRow) : List (String × ℤ × ℤ) :=
  rows.foldl addCell []

/-- `min(v["impressions"] for v in by_cell.values())`; only applied to the
nonempty aggregate (the loop body returns early when no rows are staged). -/
def minImpressions : List (String × ℤ × ℤ) → ℤ
  | [] => 0
  | e :: es => es.foldl (fun m x => min m x.2.2) e.2.2

/-- `Runtime._attempt_downgrade` from `example_code.py`: `None` when
`allow_downgrade_to` is empty; otherwise pick the entry with the coarsest
granularity (`sorted(..., key=GRAN_ORDER[x[1]], reverse=True)[0]`), emit a
`DOWNGRADE` audit row, and return the contract with only `granularity`
replaced. -/
def attempt_downgrade (s : Store) (contract : RuntimeContract) :
    Store × Option RuntimeContract :=
  match contract.allow_downgrade_to.mergeSort fun a b => GRAN_ORDER b.2 ≤ GRAN_ORDER a.2 with
  | [] => (s, none)
  | target :: _ =>
    let new_contract := { contract with granularity := target.2 }
    (s.audit "DOWNGRADE" contract.feature_id
        (.obj [("from", .arr [.str contract.boundary, .str contract.granularity]),
               ("to", .arr [.str target.1, .str target.2]),
               ("contract_version", .str contract.contract_version)]),
      some new_contract)

/-- `Runtime._apply_dp_mean_0_1` from `example_code.py`, with the realized
Gaussian sample passed in: `noisy = mean + gaussian_noise(sigma / max(1, N))`,
clamped to `[0, 1]`.  `sample` is the value drawn by `random.gauss(0.0, std)`
for this call. -/
def apply_dp_mean_0_1 (mean : ℚ) (N : ℤ) (contract : RuntimeContract) (sample : ℚ) : ℚ :=
  let sigma := contract.dp_parameters.sigma
  let _std := sigma * (1 / max 1 (N : ℚ))
  clamp01 (mean + sample)

/-- The per-cell write loop at the end of `Runtime.materialize`, followed by
the `MATERIALIZE` audit row.  `noise fid cell` is the realized Gaussian
sample for that cell (each cell draws exactly once per call). -/
def writeCells (noise : String → String → ℚ) (boundary window_id fid : String)
    (contract : RuntimeContract) (by_cell : List (String × ℤ × ℤ)) (s : Store) : Store :=
  let s := by_cell.foldl
    (fun acc cell =>
      let clicks : ℤ := cell.2.1
      let imps : ℤ := max 1 cell.2.2
      let ctr : ℚ := (clicks : ℚ) / (imps : ℚ)
      let value := apply_dp_mean_0_1 ctr imps contract (noise fid cell.1)
      acc.write_materialized boundary fid contract.granularity window_id cell.1 value
        contract.contract_version)
    s
  s.audit "MATERIALIZE" fid
    (.obj [("boundary", .str boundary),
           ("granularity", .str contract.granularity),
           ("window_id", .str window_id),
           ("contract_version", .str contract.contract_version)])

/-- The body of the per-feature loop of `Runtime.materialize` from
`example_code.py`. -/
def materializeStep (noise : String → String → ℚ) (boundary window_id : String)
    (s : Store) (fid : String) : Store :=
  match s.read_active_contract fid with
  | none => s
  | some contract =>
    if contract.boundary ≠ boundary then s
    else
      let rows := s.read_staged boundary fid contract.granularity window_id
      if rows = [] then s
      else
        let by_cell := aggregateCells rows
        let min_support := minImpressions by_cell
        if min_support < contract.dp_parameters.min_support_threshold then
          match attempt_downgrade s contract with
          | (s1, none) =>
            s1.audit "BLOCK" fid
              (.obj [("reason", .str "MIN_SUPPORT_FAIL"), ("min_support", .int min_support)])
          | (s1, some downgraded) =>
            let s2 := s1.audit "DOWNGRADE_NOTICE" fid
              (.obj [("note", .str "demo does not re-stage by new granularity")])
            writeCells noise boundary window_id fid downgraded by_cell s2
        else
          writeCells noise boundary window_id fid contract by_cell s

/-- `Runtime.materialize` from `example_code.py`: apply the loop body to
every feature of the catalog (`list_features` is read once, before the first
iteration). -/
def materialize (noise : String → String → ℚ) (boundary window_id : String)
    (s : Store) : Store :=
  s.catalog.foldl (materializeStep noise boundary window_id) s

end ExampleCode

/-! ## Theorems -/

open PPDS ExampleCode

/-- Helper: `List.find?` returns the first element satisfying the predicate. -/
lemma find_first {α : Type _} (p : α → Bool) (l₁ l₂ : List α) (c : α)
    (h₁ : ∀ x ∈ l₁, p x = false) (hc : p c = true) :
    (l₁ ++ c :: l₂).find? p = some c := by
  induction l₁ with
  | nil => simp [List.find?_cons, hc]
  | cons a t ih =>
    have ha : p a = false := h₁ a (by simp)
    simp only [List.cons_append, List.find?_cons, ha]
    exact ih fun x hx => h₁ x (by simp [hx])

/-- C1.  The threshold-gated search of `decide`: the acceptance test on a
cell is exactly the pair of risk-threshold comparisons; a feasible result
passes the test at its own cell and carries the scorecard of its own
granularity; the cell returned is the first passing cell in the
CENTRAL→SHUFFLE→LOCAL × ITEM→CLUSTER→AGGREGATE order; when no cell passes,
the selection falls back to `(LOCAL, AGGREGATE, feasible=false)` with reason
`"no_feasible_option_under_thresholds"` (carrying the scorecard of the first
examined cell).  However `decide` itself then raises `TypeError` for every
input when `_attach_planner_constraints` calls `dataclasses.replace` with
fields `Decision` does not declare, so the selected decision is never
returned to the caller. -/
theorem c1_decide_threshold_search :
    (∀ f th, Planner.decide f th = Except.error attachTypeError) ∧
    (∀ f th c, Planner.cellFeasible f th c = true ↔
      ((compute_scorecard f c.2 th).risk ≤ th.tau_boundary c.1 ∧
       (compute_scorecard f c.2 th).risk ≤ th.tau_granularity c.2)) ∧
    (∀ f th, (Planner.decide_select f th).feasible = true →
      Planner.cellFeasible f th
        ((Planner.decide_select f th).boundary, (Planner.decide_select f th).granularity) = true ∧
      (Planner.decide_select f th).scorecard =
        compute_scorecard f (Planner.decide_select f th).granularity th ∧
      (Planner.decide_select f th).reason = "feasible") ∧
    (∀ f th l₁ c l₂, Planner.cellOrder = l₁ ++ c :: l₂ →
      (∀ x ∈ l₁, Planner.cellFeasible f th x = false) →
      Planner.cellFeasible f th c = true →
      Planner.decide_select f th =
        ⟨c.1, c.2, true, compute_scorecard f c.2 th, "feasible"⟩) ∧
    (∀ f th, (∀ c ∈ Planner.cellOrder, Planner.cellFeasible f th c = false) →
      Planner.decide_select f th =
        ⟨.LOCAL, .AGGREGATE, false, compute_scorecard f .ITEM th,
          "no_feasible_option_under_thresholds"⟩) := by
  refine ⟨fun f th => rfl, ?_, ?_, ?_, ?_⟩
  · intro f th c
    simp [Planner.cellFeasible, feasible_boundary, feasible_granularity]
  · intro f th
    unfold Planner.decide_select
    cases hfind : Planner.cellOrder.find? (Planner.cellFeasible f th) with
    | none => intro h; simp at h
    | some bg =>
      obtain ⟨b, g⟩ := bg
      intro _
      exact ⟨List.find?_some hfind, rfl, rfl⟩
  · intro f th l₁ c l₂ horder hfalse hc
    unfold Planner.decide_select
    rw [horder, find_first _ _ _ _ hfalse hc]
  · intro f th hall
    unfold Planner.decide_select
    rw [List.find?_eq_none.mpr fun x hx => by simp [hall x hx]]

/-- Helper: `clamp01` is nonnegative, so the aggregate risk is nonnegative
and no cell can pass a negative threshold. -/
lemma clamp01_nonneg (x : ℚ) : 0 ≤ clamp01 x := le_max_left 0 _

/-- Helper: with every threshold equal to `-1`, every cell fails. -/
lemma cellFeasible_neg_thresholds (f : FeatureSpec) (aL aU aI aR : ℚ) (k : ℤ)
    (c : Boundary × Granularity) :
    Planner.cellFeasible f ⟨fun _ => -1, fun _ => -1, k, aL, aU, aI, aR⟩ c = false := by
  have h : ¬(compute_scorecard f c.2 ⟨fun _ => -1, fun _ => -1, k, aL, aU, aI, aR⟩).risk ≤ -1 := by
    intro hle
    have h0 : (0 : ℚ) ≤
        (compute_scorecard f c.2 ⟨fun _ => -1, fun _ => -1, k, aL, aU, aI, aR⟩).risk :=
      clamp01_nonneg _
    linarith
  simp [Planner.cellFeasible, feasible_boundary, h]

/-- C1 witness: with every threshold set to `-1` no cell is feasible, and the
selection falls back to `(LOCAL, AGGREGATE, feasible=false)`. -/
theorem c1_decide_threshold_search_witness :
    Planner.decide_select
        ⟨"f", "", [⟨"uid", "string", false, true, none⟩], [], 30, fun _ => none, "user", [],
          fun _ => none⟩
        ⟨fun _ => -1, fun _ => -1, 100, 0.30, 0.35, 0.25, 0.10⟩ =
      ⟨.LOCAL, .AGGREGATE, false,
        compute_scorecard
          ⟨"f", "", [⟨"uid", "string", false, true, none⟩], [], 30, fun _ => none, "user", [],
            fun _ => none⟩
          .ITEM
          ⟨fun _ => -1, fun _ => -1, 100, 0.30, 0.35, 0.25, 0.10⟩,
        "no_feasible_option_under_thresholds"⟩ :=
  c1_decide_threshold_search.2.2.2.2 _ _ fun c _ => cellFeasible_neg_thresholds _ _ _ _ _ _ c

/-- C10.  Whenever the selection loop of `decide` finds no feasible cell, the
infeasible Decision it builds reports `(LOCAL, AGGREGATE)` but embeds the
scorecard computed at granularity `ITEM` (the first cell examined, kept in
the `best` accumulator), not one recomputed at `AGGREGATE`; so whenever the
uniqueness component differs between `ITEM` and `AGGREGATE`, the embedded
scorecard does not correspond to the reported granularity.  (`decide` itself
then raises `TypeError` when attaching planner constraints; see C1.) -/
theorem c10_infeasible_scorecard_is_item :
    ∀ f th, (Planner.decide_select f th).feasible = false →
      (Planner.decide_select f th).boundary = Boundary.LOCAL ∧
      (Planner.decide_select f th).granularity = Granularity.AGGREGATE ∧
      (Planner.decide_select f th).scorecard = compute_scorecard f .ITEM th ∧
      ((compute_uniqueness f .ITEM th.k_min).1 ≠ (compute_uniqueness f .AGGREGATE th.k_min).1 →
        (Planner.decide_select f th).scorecard ≠ compute_scorecard f .AGGREGATE th) := by
  intro f th
  unfold Planner.decide_select
  cases hfind : Planner.cellOrder.find? (Planner.cellFeasible f th) with
  | some bg => obtain ⟨b, g⟩ := bg; intro h; simp at h
  | none =>
    intro _
    refine ⟨rfl, rfl, rfl, fun hU heq => hU ?_⟩
    have hsc : (compute_scorecard f .ITEM th).U = (compute_scorecard f .AGGREGATE th).U := by
      exact congrArg Scorecard.U heq
    simpa [compute_scorecard] using hsc

/-- C10 witness: a feature with one identifier field and prohibitive
thresholds; the infeasible decision embeds the ITEM scorecard, whose
uniqueness component (1) differs from the AGGREGATE one (0.25), so the
embedded scorecard is not the one of the reported AGGREGATE granularity. -/
theorem c10_infeasible_scorecard_is_item_witness :
    (Planner.decide_select
        ⟨"f", "", [⟨"uid", "string", false, true, none⟩], [], 30, fun _ => none, "user", [],
          fun _ => none⟩
        ⟨fun _ => -1, fun _ => -1, 100, 0.30, 0.35, 0.25, 0.10⟩).scorecard =
      compute_scorecard
        ⟨"f", "", [⟨"uid", "string", false, true, none⟩], [], 30, fun _ => none, "user", [],
          fun _ => none⟩
        .ITEM
        ⟨fun _ => -1, fun _ => -1, 100, 0.30, 0.35, 0.25, 0.10⟩ ∧
    (Planner.decide_select
        ⟨"f", "", [⟨"uid", "string", false, true, none⟩], [], 30, fun _ => none, "user", [],
          fun _ => none⟩
        ⟨fun _ => -1, fun _ => -1, 100, 0.30, 0.35, 0.25, 0.10⟩).scorecard ≠
      compute_scorecard
        ⟨"f", "", [⟨"uid", "string", false, true, none⟩], [], 30, fun _ => none, "user", [],
          fun _ => none⟩
        .AGGREGATE
        ⟨fun _ => -1, fun _ => -1, 100, 0.30, 0.35, 0.25, 0.10⟩ := by
  have hfeas : (Planner.decide_select
      ⟨"f", "", [⟨"uid", "string", false, true, none⟩], [], 30, fun _ => none, "user", [],
        fun _ => none⟩
      ⟨fun _ => -1, fun _ => -1, 100, 0.30, 0.35, 0.25, 0.10⟩).feasible = false := by
    unfold Planner.decide_select
    rw [List.find?_eq_none.mpr fun x _ => by
      simp [cellFeasible_neg_thresholds _ _ _ _ _ _ x]]
  have h := c10_infeasible_scorecard_is_item _ _ hfeas
  refine ⟨h.2.2.1, h.2.2.2 ?_⟩
  norm_num [compute_uniqueness, uniq_field_contribution, clamp01, max_def, min_def]

/-- A feature tagged `precise_location` whose risk is low (large support, no
join keys, no sensitive fields): risk is `clamp01(0.35/10000 + 0.25*0.05 +
0.10*0.45) = 0.057535`, below every threshold. -/
def featureC4 : FeatureSpec :=
  ⟨"loc_feature", "", [], [], 30, fun _ => none, "user", ["precise_location"],
    fun _ => some 1000000⟩

/-- The thresholds used by the C4 counterexample (the values of the test
suite of the repository). -/
def thresholdsC4 : PolicyThresholds :=
  ⟨fun b => match b with | .LOCAL => 0.9 | .SHUFFLE => 0.7 | .CENTRAL => 0.55,
   fun g => match g with | .ITEM => 0.45 | .CLUSTER => 0.6 | .AGGREGATE => 0.75,
   100, 0.30, 0.35, 0.25, 0.10⟩

/-- C4 counterexample: the threshold-gated search applies no tag-based gate —
for a feature tagged `precise_location` the selection loop of `decide`
accepts the very first cell, `(CENTRAL, ITEM)`, because its scalar risk
passes both thresholds.  The CENTRAL cells are not removed from the
candidate set. -/
theorem c4_counterexample :
    featureC4.policy_tags = ["precise_location"] ∧
    (Planner.decide_select featureC4 thresholdsC4).boundary = Boundary.CENTRAL ∧
    (Planner.decide_select featureC4 thresholdsC4).feasible = true := by
  have htag : tag_weight "precise_location" = 0.45 := by
    unfold tag_weight
    rw [if_neg (by decide), if_pos rfl]
  have hcell : Planner.cellFeasible featureC4 thresholdsC4
      (Boundary.CENTRAL, Granularity.ITEM) = true := by
    norm_num [Planner.cellFeasible, feasible_boundary, feasible_granularity,
      compute_scorecard, compute_uniqueness, compute_linkability, compute_inferability,
      compute_policy_penalty, htag, clamp01, featureC4, thresholdsC4, max_def, min_def]
  have horder : Planner.cellOrder =
      [] ++ (Boundary.CENTRAL, Granularity.ITEM) ::
        [(.CENTRAL, .CLUSTER), (.CENTRAL, .AGGREGATE), (.SHUFFLE, .ITEM),
         (.SHUFFLE, .CLUSTER), (.SHUFFLE, .AGGREGATE), (.LOCAL, .ITEM),
         (.LOCAL, .CLUSTER), (.LOCAL, .AGGREGATE)] := rfl
  have hfind : Planner.cellOrder.find? (Planner.cellFeasible featureC4 thresholdsC4) =
      some (Boundary.CENTRAL, Granularity.ITEM) := by
    rw [horder]
    exact find_first _ _ _ _ (by simp) hcell
  refine ⟨rfl, ?_, ?_⟩ <;> · unfold Planner.decide_select; rw [hfind]

/-- C4 amended: the hard CENTRAL deny for `precise_location` lives in the
admissible-set derivation of `example_code.py` only: for every feature whose
`sensitivity_tags` contain `precise_location`, no `(CENTRAL, g)` cell is in
the admissible set derived from `_compute_policy_penalty`'s hard rules,
regardless of the scalar risk value. -/
theorem c4_admissible_set_denies_central :
    ∀ (policy : PolicyConfig) (f : FeatureDef) (lps_total : ℚ) (g : String),
      "precise_location" ∈ f.sensitivity_tags →
      ("CENTRAL", g) ∉ (derive_admissible_set policy f lps_total
        (compute_policy_penalty_hard f).2.2).1 := by
  intro policy f lps g hmem hcontra
  have hdeny : "CENTRAL" ∈ (compute_policy_penalty_hard f).2.2.deny_boundaries := by
    simp only [compute_policy_penalty_hard]
    rw [if_pos hmem]
    by_cases hd : "demographics" ∈ f.sensitivity_tags <;> simp [hd]
  unfold derive_admissible_set at hcontra
  simp only [Finset.mem_filter] at hcontra
  exact hcontra.1.2 hdeny

/-- C4 witness for the amended theorem: a concrete `precise_location` feature
with full boundary and granularity capabilities; `(CENTRAL, ITEM)` is not
admissible. -/
theorem c4_admissible_set_denies_central_witness :
    ("CENTRAL", "ITEM") ∉ (derive_admissible_set
      ⟨"p1", 0, 0, 0, 0, 0, 0, 0, 1, 1, 0.35, 0.65, 1, 1, 0, 0, 0, 1, 50⟩
      ⟨"f1", "v1", "owner", "MEAN_BOUNDED_0_1", [], 30, {"precise_location"},
        {"LOCAL", "SHUFFLE", "CENTRAL"}, {"ITEM", "CLUSTER", "AGGREGATE"}⟩
      0
      (compute_policy_penalty_hard
        ⟨"f1", "v1", "owner", "MEAN_BOUNDED_0_1", [], 30, {"precise_location"},
          {"LOCAL", "SHUFFLE", "CENTRAL"}, {"ITEM", "CLUSTER", "AGGREGATE"}⟩).2.2).1 :=
  c4_admissible_set_denies_central _ _ _ _ (by simp)

/-- Helper: the known-support branch of `compute_uniqueness` evaluates to `1`
when the support does not exceed `k_min`, and to `k_min / support` otherwise. -/
lemma uniq_support_val (f : FeatureSpec) (g : Granularity) (k s : ℤ)
    (hs : f.support_hint g = some s) (hspos : 0 < s) (hk : 1 ≤ k) :
    (compute_uniqueness f g k).1 = if s ≤ k then 1 else (k : ℚ) / (s : ℚ) := by
  have hk0 : (0 : ℚ) < (k : ℚ) := by exact_mod_cast lt_of_lt_of_le Int.zero_lt_one hk
  have hs0 : (0 : ℚ) < (s : ℚ) := by exact_mod_cast hspos
  unfold compute_uniqueness
  rw [hs]
  simp only [if_pos hspos]
  by_cases hle : s ≤ k
  · rw [if_pos hle]
    have hratio : (s : ℚ) / (k : ℚ) ≤ 1 := by
      rw [div_le_one hk0]; exact_mod_cast hle
    rw [max_eq_left hratio]
    norm_num [clamp01]
  · rw [if_neg hle]
    have hks : (k : ℚ) < (s : ℚ) := by exact_mod_cast lt_of_not_le hle
    have h1 : (1 : ℚ) < (s : ℚ) / (k : ℚ) := by
      rw [lt_div_iff₀ hk0, one_mul]; exact hks
    rw [max_eq_right h1.le, one_div, inv_div]
    have hle1 : (k : ℚ) / (s : ℚ) ≤ 1 := by
      rw [div_le_one hs0]; exact hks.le
    have h0 : (0 : ℚ) ≤ (k : ℚ) / (s : ℚ) := by positivity
    unfold clamp01
    rw [min_eq_right hle1, max_eq_right h0]

/-- Helper: comparison of the known-support uniqueness value at two support
levels `s₁ < s₂`: never increasing, and strictly decreasing exactly when the
larger support exceeds `k_min`. -/
lemma uniq_support_pair (k s₁ s₂ : ℤ) (hk : 1 ≤ k) (h₁ : 0 < s₁) (h₁₂ : s₁ < s₂) :
    ((if s₂ ≤ k then (1 : ℚ) else (k : ℚ) / (s₂ : ℚ)) ≤
      (if s₁ ≤ k then (1 : ℚ) else (k : ℚ) / (s₁ : ℚ))) ∧
    ((if s₂ ≤ k then (1 : ℚ) else (k : ℚ) / (s₂ : ℚ)) <
      (if s₁ ≤ k then (1 : ℚ) else (k : ℚ) / (s₁ : ℚ)) ↔ k < s₂) := by
  have hk0 : (0 : ℚ) < (k : ℚ) := by exact_mod_cast lt_of_lt_of_le Int.zero_lt_one hk
  have hs₂0 : (0 : ℚ) < (s₂ : ℚ) := by exact_mod_cast lt_trans h₁ h₁₂
  by_cases h2 : s₂ ≤ k
  · have h1 : s₁ ≤ k := le_of_lt (lt_of_lt_of_le h₁₂ h2)
    rw [if_pos h2, if_pos h1]
    simp [not_lt_of_le h2]
  · have hks₂ : (k : ℚ) < (s₂ : ℚ) := by exact_mod_cast lt_of_not_le h2
    have hrhs : (k : ℚ) / (s₂ : ℚ) < 1 := by
      rw [div_lt_one hs₂0]; exact hks₂
    rw [if_neg h2]
    by_cases h1 : s₁ ≤ k
    · rw [if_pos h1]
      exact ⟨hrhs.le, by simp [hrhs, lt_of_not_le h2]⟩
    · rw [if_neg h1]
      have hs₁0 : (0 : ℚ) < (s₁ : ℚ) := by exact_mod_cast h₁
      have hlt : (k : ℚ) / (s₂ : ℚ) < (k : ℚ) / (s₁ : ℚ) :=
        div_lt_div_of_pos_left hk0 hs₁0 (by exact_mod_cast h₁₂)
      exact ⟨hlt.le, by simp [hlt, lt_of_not_le h2]⟩

/-- The C9 counterexample feature: positive, strictly increasing support
hints `1 < 2 < 3`, all below `k_min = 100`, so the uniqueness value
saturates at `1` for every granularity. -/
def featureC9 : FeatureSpec :=
  ⟨"f9", "", [], [], 30, fun _ => none, "user", [],
    fun g => match g with | .ITEM => some 1 | .CLUSTER => some 2 | .AGGREGATE => some 3⟩

/-- C9 counterexample: with known positive supports `ITEM=1 < CLUSTER=2 <
AGGREGATE=3` and `k_min = 100 ≥ 1`, the uniqueness component is `1` at both
ITEM and CLUSTER — not strictly larger at ITEM. -/
theorem c9_counterexample :
    (featureC9.support_hint .ITEM = some 1 ∧ featureC9.support_hint .CLUSTER = some 2 ∧
     featureC9.support_hint .AGGREGATE = some 3 ∧ (0 : ℤ) < 1 ∧ (1 : ℤ) < 2 ∧
     (2 : ℤ) < 3 ∧ (1 : ℤ) ≤ 100) ∧
    (compute_uniqueness featureC9 .ITEM 100).1 = (compute_uniqueness featureC9 .CLUSTER 100).1 ∧
    ¬((compute_uniqueness featureC9 .ITEM 100).1 >
      (compute_uniqueness featureC9 .CLUSTER 100).1) := by
  have hI := uniq_support_val featureC9 .ITEM 100 1 rfl (by decide) (by decide)
  have hC := uniq_support_val featureC9 .CLUSTER 100 2 rfl (by decide) (by decide)
  rw [if_pos (by decide : (1 : ℤ) ≤ 100)] at hI
  rw [if_pos (by decide : (2 : ℤ) ≤ 100)] at hC
  refine ⟨⟨rfl, rfl, rfl, by decide, by decide, by decide, by decide⟩, ?_, ?_⟩
  · rw [hI, hC]
  · rw [hI, hC]; exact lt_irrefl 1

/-- C9 amended: for known positive supports increasing along
ITEM < CLUSTER < AGGREGATE and any `k_min ≥ 1`, the uniqueness component is
nonincreasing from ITEM to CLUSTER to AGGREGATE, and a step is strict if and
only if the coarser support of the step exceeds `k_min` (below that the
value saturates at `1`). -/
theorem c9_uniqueness_nonincreasing :
    ∀ (f : FeatureSpec) (k sI sC sA : ℤ),
      f.support_hint .ITEM = some sI → f.support_hint .CLUSTER = some sC →
      f.support_hint .AGGREGATE = some sA →
      1 ≤ k → 0 < sI → sI < sC → sC < sA →
      ((compute_uniqueness f .CLUSTER k).1 ≤ (compute_uniqueness f .ITEM k).1 ∧
       (compute_uniqueness f .AGGREGATE k).1 ≤ (compute_uniqueness f .CLUSTER k).1 ∧
       ((compute_uniqueness f .CLUSTER k).1 < (compute_uniqueness f .ITEM k).1 ↔ k < sC) ∧
       ((compute_uniqueness f .AGGREGATE k).1 < (compute_uniqueness f .CLUSTER k).1 ↔ k < sA)) := by
  intro f k sI sC sA hI hC hA hk hIpos hIC hCA
  have hCpos : 0 < sC := lt_trans hIpos hIC
  rw [uniq_support_val f .ITEM k sI hI hIpos hk,
    uniq_support_val f .CLUSTER k sC hC hCpos hk,
    uniq_support_val f .AGGREGATE k sA hA (lt_trans hCpos hCA) hk]
  obtain ⟨hle₁, hiff₁⟩ := uniq_support_pair k sI sC hk hIpos hIC
  obtain ⟨hle₂, hiff₂⟩ := uniq_support_pair k sC sA hk hCpos hCA
  exact ⟨hle₁, hle₂, hiff₁, hiff₂⟩

/-- The C9 witness feature: supports `10 < 200 < 3000`. -/
def featureC9w : FeatureSpec :=
  ⟨"f9w", "", [], [], 30, fun _ => none, "user", [],
    fun g => match g with
             | .ITEM => some 10
             | .CLUSTER => some 200
             | .AGGREGATE => some 3000⟩

/-- C9 witness: supports `10 < 200 < 3000` with `k_min = 100`: the value is
`1` at ITEM, `1/2` at CLUSTER, `1/30` at AGGREGATE — nonincreasing, with
both steps strict since `100 < 200` and `100 < 3000`. -/
theorem c9_uniqueness_nonincreasing_witness :
    (compute_uniqueness featureC9w .CLUSTER 100).1 ≤
      (compute_uniqueness featureC9w .ITEM 100).1 ∧
    ((compute_uniqueness featureC9w .CLUSTER 100).1 <
      (compute_uniqueness featureC9w .ITEM 100).1 ↔ (100 : ℤ) < 200) := by
  have h := c9_uniqueness_nonincreasing featureC9w 100 10 200 3000 rfl rfl rfl
    (by decide) (by decide) (by decide) (by decide)
  exact ⟨h.1, h.2.2.1⟩

/-- C3.  The `PolicyThresholds` dataclass performs no validation at all: its
generated constructor accepts weights summing to `2.0` and `k_min = 0`
without raising, and stores every argument unchanged (it also does not
normalize).  This contradicts the validation behaviour that the claim (and
the repository test suite `tests/test_policy_thresholds_validation.py`)
requires. -/
theorem c3_policy_thresholds_unvalidated :
    (mkPolicyThresholds (fun _ => 0.5) (fun _ => 0.5) 0 0.5 0.5 0.5 0.5).alpha_L = 0.5 ∧
    (mkPolicyThresholds (fun _ => 0.5) (fun _ => 0.5) 0 0.5 0.5 0.5 0.5).alpha_U = 0.5 ∧
    (mkPolicyThresholds (fun _ => 0.5) (fun _ => 0.5) 0 0.5 0.5 0.5 0.5).alpha_I = 0.5 ∧
    (mkPolicyThresholds (fun _ => 0.5) (fun _ => 0.5) 0 0.5 0.5 0.5 0.5).alpha_R = 0.5 ∧
    (mkPolicyThresholds (fun _ => 0.5) (fun _ => 0.5) 0 0.5 0.5 0.5 0.5).alpha_L +
      (mkPolicyThresholds (fun _ => 0.5) (fun _ => 0.5) 0 0.5 0.5 0.5 0.5).alpha_U +
      (mkPolicyThresholds (fun _ => 0.5) (fun _ => 0.5) 0 0.5 0.5 0.5 0.5).alpha_I +
      (mkPolicyThresholds (fun _ => 0.5) (fun _ => 0.5) 0 0.5 0.5 0.5 0.5).alpha_R = 2 ∧
    (mkPolicyThresholds (fun _ => 0.5) (fun _ => 0.5) 0 0.5 0.5 0.5 0.5).k_min = 0 := by
  refine ⟨rfl, rfl, rfl, rfl, ?_, rfl⟩
  norm_num [mkPolicyThresholds]

/-- Helper: the accumulating loop of `window_spend` computes the pair of
sums of `epsilon` and `delta` over the events passing the filter. -/
lemma spend_fold (fid : String) (lo hi : ℤ) :
    ∀ (l : List SpendEvent) (acc : ℚ × ℚ),
      (l.foldl
        (fun acc e =>
          if e.feature_id = fid ∧ lo ≤ e.day ∧ e.day ≤ hi then
            (acc.1 + e.epsilon, acc.2 + e.delta)
          else acc)
        acc) =
      (acc.1 + ((l.filter fun e =>
          e.feature_id = fid ∧ lo ≤ e.day ∧ e.day ≤ hi).map SpendEvent.epsilon).sum,
       acc.2 + ((l.filter fun e =>
          e.feature_id = fid ∧ lo ≤ e.day ∧ e.day ≤ hi).map SpendEvent.delta).sum) := by
  intro l
  induction l with
  | nil => intro acc; simp
  | cons e t ih =>
    intro acc
    by_cases hp : e.feature_id = fid ∧ lo ≤ e.day ∧ e.day ≤ hi
    · rw [List.foldl_cons, if_pos hp, ih, List.filter_cons, decide_eq_true hp,
        if_pos rfl, List.map_cons, List.sum_cons, List.map_cons, List.sum_cons]
      exact Prod.ext (by ring) (by ring)
    · rw [List.foldl_cons, if_neg hp, ih, List.filter_cons, decide_eq_false hp,
        if_neg Bool.false_ne_true]

/-- C7.  `window_spend` sums epsilon and delta exactly over the committed
events of the feature with day in the inclusive window
`[asof - window_days + 1, asof]`, and `can_spend` is true iff both the
epsilon and the delta spend plus the candidate stay within their caps. -/
theorem c7_budget_window_and_can_spend :
    ∀ (ledger : BudgetLedger) (fid : String) (window_days asof : ℤ)
      (eps_cap delta_cap next_eps next_delta : ℚ),
      ledger.window_spend fid window_days asof =
        (((ledger.events.filter fun e =>
            e.feature_id = fid ∧ asof - window_days + 1 ≤ e.day ∧ e.day ≤ asof).map
              SpendEvent.epsilon).sum,
         ((ledger.events.filter fun e =>
            e.feature_id = fid ∧ asof - window_days + 1 ≤ e.day ∧ e.day ≤ asof).map
              SpendEvent.delta).sum) ∧
      (ledger.can_spend fid window_days asof eps_cap delta_cap next_eps next_delta = true ↔
        ((ledger.window_spend fid window_days asof).1 + next_eps ≤ eps_cap ∧
         (ledger.window_spend fid window_days asof).2 + next_delta ≤ delta_cap)) := by
  intro ledger fid w asof eps_cap delta_cap next_eps next_delta
  constructor
  · have hb : asof - (w - 1) = asof - w + 1 := by ring
    simp only [BudgetLedger.window_spend, hb, spend_fold, zero_add]
  · simp [BudgetLedger.can_spend]

/-- C5.  The fail-closed gate: whenever the scoring callback raises, the
verdict is REJECT with exit code 2 and the single reason code
`EVALUATION_ERROR` — never ALLOW. -/
theorem c5_gate_rejects_on_scoring_error :
    ∀ (path bytes : String) (thr : ℚ) (payload : Json)
      (fn : Json → Except String (ℚ × Json)) (ov : Option ℚ) (hr : Bool) (e : String),
      fn payload = .error e →
      (evaluate_policy_gate path bytes thr payload fn ov hr).decision = "REJECT" ∧
      (evaluate_policy_gate path bytes thr payload fn ov hr).decision ≠ "ALLOW" ∧
      (evaluate_policy_gate path bytes thr payload fn ov hr).exit_code = 2 ∧
      ((evaluate_policy_gate path bytes thr payload fn ov hr).reasons.map
        RejectionReason.code) = ["EVALUATION_ERROR"] := by
  intro path bytes thr payload fn ov hr e herr
  unfold evaluate_policy_gate
  simp only [herr]
  refine ⟨?_, ?_, ?_, ?_⟩ <;> trivial

/-- C5 witness: a concrete callback that raises; the gate decision is REJECT
with exit code 2 and reason `EVALUATION_ERROR`. -/
theorem c5_gate_rejects_on_scoring_error_witness :
    (evaluate_policy_gate "policy.yaml" "policybytes" 0.5 .null
        (fun _ => .error "boom") none true).decision = "REJECT" ∧
    (evaluate_policy_gate "policy.yaml" "policybytes" 0.5 .null
        (fun _ => .error "boom") none true).decision ≠ "ALLOW" ∧
    (evaluate_policy_gate "policy.yaml" "policybytes" 0.5 .null
        (fun _ => .error "boom") none true).exit_code = 2 ∧
    ((evaluate_policy_gate "policy.yaml" "policybytes" 0.5 .null
        (fun _ => .error "boom") none true).reasons.map RejectionReason.code) =
      ["EVALUATION_ERROR"] :=
  c5_gate_rejects_on_scoring_error "policy.yaml" "policybytes" 0.5 .null
    (fun _ => .error "boom") none true "boom" rfl

/-- Helper for C2: after the deactivating `UPDATE`, none of the pre-existing
rows (those surviving the `INSERT OR REPLACE` key filter) is an active row
of the appended contract's feature. -/
lemma append_contract_old_rows_inactive (c : RuntimeContract) (l : List ContractRow) :
    (((l.filter fun r =>
        ¬(r.feature_id = c.feature_id ∧ r.contract_version = c.contract_version)).map
          fun r =>
            if r.feature_id = c.feature_id ∧ r.contract_version ≠ c.contract_version then
              { r with active := false }
            else r).filter
      fun r => r.feature_id = c.feature_id ∧ r.active = true) = [] := by
  rw [List.filter_eq_nil_iff]
  intro a ha
  obtain ⟨x, hx, rfl⟩ := List.mem_map.mp ha
  have hnk : ¬(x.feature_id = c.feature_id ∧ x.contract_version = c.contract_version) :=
    of_decide_eq_true (List.mem_filter.mp hx).2
  by_cases hfid : x.feature_id = c.feature_id
  · have hver : x.contract_version ≠ c.contract_version := fun hv => hnk ⟨hfid, hv⟩
    rw [if_pos ⟨hfid, hver⟩]
    simp
  · rw [if_neg fun hcon => hfid hcon.1]
    simp [hfid]

/-- C2.  Contract activation is exclusive: appending an active contract
leaves exactly one active row for that `feature_id` — the row of the newly
appended version (the `INSERT OR REPLACE` plus the deactivating `UPDATE`
form one logical transaction). -/
theorem c2_contract_activation_exclusive :
    ∀ (s : Store) (c : RuntimeContract), c.active = true →
      ((s.append_runtime_contract c).contracts.filter fun r =>
          r.feature_id = c.feature_id ∧ r.active = true) =
        [⟨c.feature_id, c.contract_version, true, c⟩] := by
  intro s c hact
  unfold Store.append_runtime_contract
  dsimp only
  rw [List.map_append, List.filter_append, append_contract_old_rows_inactive]
  simp [hact]

/-- The C2 witness store: an older active contract `v1` for feature `f` and
an active contract for another feature `g`. -/
def storeC2w : Store :=
  ⟨["f", "g"],
   [⟨"f", "v1", true, ⟨"f", "v1", "CENTRAL", "ITEM", [], "GAUSSIAN", ⟨1, 50⟩,
      ⟨true, []⟩, ⟨30⟩, [], true⟩⟩,
    ⟨"g", "v1", true, ⟨"g", "v1", "LOCAL", "AGGREGATE", [], "GAUSSIAN", ⟨1, 50⟩,
      ⟨false, []⟩, ⟨30⟩, [], true⟩⟩],
   [], [], []⟩

/-- The C2 witness contract: active version `v2` for feature `f`. -/
def contractC2w : RuntimeContract :=
  ⟨"f", "v2", "SHUFFLE", "CLUSTER", [], "GAUSSIAN", ⟨1, 50⟩, ⟨false, []⟩, ⟨30⟩,
    [("SHUFFLE", "AGGREGATE")], true⟩

/-- C2 witness: appending active `v2` for `f` leaves exactly the `v2` row
active for `f` (the pre-existing `v1` row is deactivated in the same step). -/
theorem c2_contract_activation_exclusive_witness :
    ((storeC2w.append_runtime_contract contractC2w).contracts.filter fun r =>
        r.feature_id = contractC2w.feature_id ∧ r.active = true) =
      [⟨"f", "v2", true, contractC2w⟩] :=
  c2_contract_activation_exclusive storeC2w contractC2w rfl

/-- Helper: `canonicalizeKVs` is the entrywise map of `canonicalizeJson` over
the values. -/
lemma canonicalizeKVs_eq_map :
    ∀ kvs : List (String × PPDS.Json),
      canonicalizeKVs kvs = kvs.map fun kv => (kv.1, canonicalizeJson kv.2) := by
  intro kvs
  induction kvs with
  | nil => rfl
  | cons kv t ih => cases kv; rw [canonicalizeKVs, ih, List.map_cons]

/-- Helper: two lists of entries that are sorted by key, have no duplicate
keys, and are permutations of each other, are equal. -/
lemma sorted_key_nodup_perm_eq :
    ∀ (l₁ l₂ : List (String × PPDS.Json)),
      l₁.Pairwise (fun a b => a.1 ≤ b.1) → l₂.Pairwise (fun a b => a.1 ≤ b.1) →
      (l₁.map Prod.fst).Nodup → l₁.Perm l₂ → l₁ = l₂ := by
  intro l₁
  induction l₁ with
  | nil =>
    intro l₂ _ _ _ hperm
    exact (List.Perm.eq_nil hperm.symm).symm
  | cons a t ih =>
    intro l₂ hp₁ hp₂ hnd hperm
    simp only [List.map_cons, List.nodup_cons] at hnd
    cases l₂ with
    | nil => exact absurd (List.Perm.eq_nil hperm) (by simp)
    | cons b t₂ =>
      have hab : a = b := by
        have hbmem : b ∈ a :: t := hperm.mem_iff.mpr (List.mem_cons_self b t₂)
        rcases List.mem_cons.mp hbmem with hba | hbt
        · exact hba.symm
        · have hamem : a ∈ b :: t₂ := hperm.mem_iff.mp (List.mem_cons_self a t)
          rcases List.mem_cons.mp hamem with hab | hat
          · exact hab
          · have h₁ : a.1 ≤ b.1 := (List.pairwise_cons.mp hp₁).1 b hbt
            have h₂ : b.1 ≤ a.1 := (List.pairwise_cons.mp hp₂).1 a hat
            have hkey : a.1 ∈ t.map Prod.fst := by
              rw [le_antisymm h₁ h₂]
              exact List.mem_map_of_mem Prod.fst hbt
            exact absurd hkey hnd.1
      subst hab
      have htail := ih t₂ (List.pairwise_cons.mp hp₁).2 (List.pairwise_cons.mp hp₂).2
        hnd.2 hperm.cons_inv
      rw [htail]

/-- Helper: the key-comparison used by `sortKVs` is transitive and total, so
`sortKVs` output is pairwise sorted by key. -/
lemma sortKVs_pairwise (kvs : List (String × PPDS.Json)) :
    (sortKVs kvs).Pairwise fun a b => a.1 ≤ b.1 := by
  have h := @List.sorted_mergeSort (String × PPDS.Json)
    (fun a b => a.1 ≤ b.1)
    (fun a b c hab hbc =>
      decide_eq_true (le_trans (of_decide_eq_true hab) (of_decide_eq_true hbc)))
    (fun a b => by
      rcases le_total a.1 b.1 with h | h <;> simp [h])
    kvs
  exact h.imp fun hab => of_decide_eq_true hab

/-- Helper: permuting an object's entries (with no duplicate keys) does not
change its canonical serialization hash. -/
lemma sha256_hex_obj_perm (kvs₁ kvs₂ : List (String × PPDS.Json))
    (hperm : kvs₁.Perm kvs₂) (hnd : (kvs₁.map Prod.fst).Nodup) :
    sha256_hex_obj (.obj kvs₁) = sha256_hex_obj (.obj kvs₂) := by
  have hcanon : ∀ kvs : List (String × PPDS.Json),
      canonicalizeJson (.obj kvs) = .obj (sortKVs (canonicalizeKVs kvs)) := fun kvs => by
    rw [canonicalizeJson]
  have hkeys : ∀ kvs : List (String × PPDS.Json),
      ((sortKVs (canonicalizeKVs kvs)).map Prod.fst).Perm (kvs.map Prod.fst) := fun kvs => by
    have h := (List.mergeSort_perm (canonicalizeKVs kvs)
      fun a b => a.1 ≤ b.1).map Prod.fst
    simpa [sortKVs, canonicalizeKVs_eq_map, List.map_map, Function.comp] using h
  have hsorted : sortKVs (canonicalizeKVs kvs₁) = sortKVs (canonicalizeKVs kvs₂) := by
    apply sorted_key_nodup_perm_eq
    · exact sortKVs_pairwise _
    · exact sortKVs_pairwise _
    · exact ((hkeys kvs₁).nodup_iff).mpr hnd
    · have hp1 : (sortKVs (canonicalizeKVs kvs₁)).Perm (canonicalizeKVs kvs₁) :=
        List.mergeSort_perm _ _
      have hp2 : (canonicalizeKVs kvs₁).Perm (canonicalizeKVs kvs₂) := by
        rw [canonicalizeKVs_eq_map, canonicalizeKVs_eq_map]
        exact hperm.map _
      have hp3 : (canonicalizeKVs kvs₂).Perm (sortKVs (canonicalizeKVs kvs₂)) :=
        (List.mergeSort_perm _ _).symm
      exact (hp1.trans hp2).trans hp3
  unfold sha256_hex_obj canonical_json_bytes
  rw [hcanon, hcanon, hsorted]

/-- C8.  `compute_input_fingerprint` is invariant under reordering of the
input object's keys, and `compute_plan_fingerprint` (which first removes
`plan_fingerprint` and `created_at`) is invariant across plan objects that
agree on all remaining fields up to key order. -/
theorem c8_fingerprints_key_order_invariant :
    (∀ kvs₁ kvs₂ : List (String × PPDS.Json), kvs₁.Perm kvs₂ →
      (kvs₁.map Prod.fst).Nodup →
      compute_input_fingerprint (.obj kvs₁) = compute_input_fingerprint (.obj kvs₂)) ∧
    (∀ p₁ p₂ : List (String × PPDS.Json),
      (popKey (popKey p₁ "plan_fingerprint") "created_at").Perm
        (popKey (popKey p₂ "plan_fingerprint") "created_at") →
      ((popKey (popKey p₁ "plan_fingerprint") "created_at").map Prod.fst).Nodup →
      compute_plan_fingerprint p₁ = compute_plan_fingerprint p₂) :=
  ⟨fun _ _ hperm hnd => sha256_hex_obj_perm _ _ hperm hnd,
   fun _ _ hperm hnd => sha256_hex_obj_perm _ _ hperm hnd⟩

/-- The C8 witness input object `{"a": 1, "b": 2, "lps": 0.1}`. -/
def inputKVs1 : List (String × PPDS.Json) :=
  [("a", .int 1), ("b", .int 2), ("lps", .num 0.1)]

/-- The C8 witness input object with its keys in the reverse order,
`{"lps": 0.1, "b": 2, "a": 1}`. -/
def inputKVs2 : List (String × PPDS.Json) :=
  [("lps", .num 0.1), ("b", .int 2), ("a", .int 1)]

/-- The C8 witness plan object, with some `created_at` and `plan_fingerprint`. -/
def planKVs1 : List (String × PPDS.Json) :=
  [("schema_version", .str "ppds.plan/0.1"), ("created_at", .str "2026-01-01T00:00:00Z"),
   ("policy_hash", .str "h1"), ("plan_fingerprint", .str "fp1")]

/-- The C8 witness plan object: same decision content in a different key
order, with different `created_at` and `plan_fingerprint`. -/
def planKVs2 : List (String × PPDS.Json) :=
  [("policy_hash", .str "h1"), ("schema_version", .str "ppds.plan/0.1"),
   ("created_at", .str "2026-02-02T00:00:00Z"), ("plan_fingerprint", .str "fp2")]

/-- C8 witness: the two input key orders hash identically, and the two plan
objects (differing in key order, `created_at` and `plan_fingerprint`) have
the same plan fingerprint. -/
theorem c8_fingerprints_key_order_invariant_witness :
    compute_input_fingerprint (.obj inputKVs1) = compute_input_fingerprint (.obj inputKVs2) ∧
    compute_plan_fingerprint planKVs1 = compute_plan_fingerprint planKVs2 := by
  constructor
  · refine c8_fingerprints_key_order_invariant.1 inputKVs1 inputKVs2 ?_ (by decide)
    exact (List.reverse_perm inputKVs1).symm
  · refine c8_fingerprints_key_order_invariant.2 planKVs1 planKVs2 ?_ (by decide)
    have h1 : popKey (popKey planKVs1 "plan_fingerprint") "created_at" =
        [("schema_version", .str "ppds.plan/0.1"), ("policy_hash", .str "h1")] := by
      simp [popKey, planKVs1, List.filter]
    have h2 : popKey (popKey planKVs2 "plan_fingerprint") "created_at" =
        [("policy_hash", .str "h1"), ("schema_version", .str "ppds.plan/0.1")] := by
      simp [popKey, planKVs2, List.filter]
    rw [h1, h2]
    exact List.Perm.swap _ _ _

/-- Helper: the per-cell write loop only appends to `materialized`. -/
lemma foldl_write_materialized (b fid g w cv : String) (v : String × ℤ × ℤ → ℚ) :
    ∀ (by_cell : List (String × ℤ × ℤ)) (s : Store),
      (by_cell.foldl
        (fun acc cell => acc.write_materialized b fid g w cell.1 (v cell) cv) s) =
      { s with materialized := s.materialized ++
          by_cell.map fun cell => ⟨b, fid, g, w, cell.1, v cell, cv⟩ } := by
  intro by_cell
  induction by_cell with
  | nil => intro s; simp
  | cons cell t ih =>
    intro s
    rw [List.foldl_cons, ih]
    simp [Store.write_materialized]

/-- Helper: the effect of `writeCells` on the store — materialized rows are
appended for every aggregated cell, and one `MATERIALIZE` audit row is
emitted; nothing else changes. -/
lemma writeCells_spec (noise : String → String → ℚ) (b w fid : String)
    (contract : RuntimeContract) (by_cell : List (String × ℤ × ℤ)) (s : Store) :
    writeCells noise b w fid contract by_cell s =
      { s with
        materialized := s.materialized ++
          by_cell.map fun cell =>
            ⟨b, fid, contract.granularity, w, cell.1,
              apply_dp_mean_0_1 ((cell.2.1 : ℚ) / ((max 1 cell.2.2 : ℤ) : ℚ))
                (max 1 cell.2.2) contract (noise fid cell.1),
              contract.contract_version⟩,
        audit_log := s.audit_log ++
          [⟨"MATERIALIZE", fid,
            .obj [("boundary", .str b), ("granularity", .str contract.granularity),
                  ("window_id", .str w),
                  ("contract_version", .str contract.contract_version)]⟩] } := by
  unfold writeCells
  rw [foldl_write_materialized b fid contract.granularity w contract.contract_version
    (fun cell => apply_dp_mean_0_1 ((cell.2.1 : ℚ) / ((max 1 cell.2.2 : ℤ) : ℚ))
      (max 1 cell.2.2) contract (noise fid cell.1)) by_cell s]
  rfl

/-- C6.  During materialization, when a feature's aggregated minimum support
is below the contract threshold: with an empty `allow_downgrade_to` the
feature/window is blocked — a `MIN_SUPPORT_FAIL` audit row is emitted and no
materialized value is written; with a non-empty list exactly one downgrade
is performed to the entry with the coarsest granularity (the head `t` of the
descending sort), and the cell values are then written under the downgraded
contract (so in particular any target whose support suffices succeeds). -/
theorem c6_min_support_block_or_single_downgrade :
    ∀ (noise : String → String → ℚ) (boundary window_id fid : String)
      (s : Store) (c : RuntimeContract),
      s.read_active_contract fid = some c →
      c.boundary = boundary →
      s.read_staged boundary fid c.granularity window_id ≠ [] →
      minImpressions (aggregateCells (s.read_staged boundary fid c.granularity window_id)) <
        c.dp_parameters.min_support_threshold →
      ((c.allow_downgrade_to = [] →
        (materializeStep noise boundary window_id s fid).materialized = s.materialized ∧
        (materializeStep noise boundary window_id s fid).audit_log =
          s.audit_log ++
            [⟨"BLOCK", fid,
              .obj [("reason", .str "MIN_SUPPORT_FAIL"),
                ("min_support", .int (minImpressions (aggregateCells
                  (s.read_staged boundary fid c.granularity window_id))))]⟩]) ∧
      (∀ t ts,
        c.allow_downgrade_to.mergeSort (fun a b => GRAN_ORDER b.2 ≤ GRAN_ORDER a.2) = t :: ts →
        (∀ x ∈ c.allow_downgrade_to, GRAN_ORDER x.2 ≤ GRAN_ORDER t.2) ∧
        (materializeStep noise boundary window_id s fid).materialized =
          s.materialized ++
            (aggregateCells (s.read_staged boundary fid c.granularity window_id)).map
              (fun cell =>
                ⟨boundary, fid, t.2, window_id, cell.1,
                  apply_dp_mean_0_1 ((cell.2.1 : ℚ) / ((max 1 cell.2.2 : ℤ) : ℚ))
                    (max 1 cell.2.2) { c with granularity := t.2 } (noise fid cell.1),
                  c.contract_version⟩) ∧
        ((materializeStep noise boundary window_id s fid).audit_log.filter
            fun a => a.event_type = "DOWNGRADE").length =
          ((s.audit_log.filter fun a => a.event_type = "DOWNGRADE").length + 1))) := by
  intro noise boundary window_id fid s c hactive hb hrows hlow
  constructor
  · intro hempty
    have hdown : attempt_downgrade s c = (s, none) := by
      unfold attempt_downgrade
      rw [hempty, List.mergeSort_nil]
    have hstep : materializeStep noise boundary window_id s fid =
        s.audit "BLOCK" fid
          (.obj [("reason", .str "MIN_SUPPORT_FAIL"),
            ("min_support", .int (minImpressions (aggregateCells
              (s.read_staged boundary fid c.granularity window_id))))]) := by
      unfold materializeStep
      simp only [hactive]
      rw [if_neg (by simp [hb]), if_neg hrows, if_pos hlow, hdown]
    rw [hstep]
    exact ⟨rfl, rfl⟩
  · intro t ts hsort
    have hdown : attempt_downgrade s c =
        (s.audit "DOWNGRADE" c.feature_id
          (.obj [("from", .arr [.str c.boundary, .str c.granularity]),
                 ("to", .arr [.str t.1, .str t.2]),
                 ("contract_version", .str c.contract_version)]),
         some { c with granularity := t.2 }) := by
      unfold attempt_downgrade
      rw [hsort]
    have hstep : materializeStep noise boundary window_id s fid =
        writeCells noise boundary window_id fid { c with granularity := t.2 }
          (aggregateCells (s.read_staged boundary fid c.granularity window_id))
          ((s.audit "DOWNGRADE" c.feature_id
            (.obj [("from", .arr [.str c.boundary, .str c.granularity]),
                   ("to", .arr [.str t.1, .str t.2]),
                   ("contract_version", .str c.contract_version)])).audit
            "DOWNGRADE_NOTICE" fid
            (.obj [("note", .str "demo does not re-stage by new granularity")])) := by
      unfold materializeStep
      simp only [hactive]
      rw [if_neg (by simp [hb]), if_neg hrows, if_pos hlow, hdown]
    refine ⟨?_, ?_, ?_⟩
    · -- t is the coarsest entry of allow_downgrade_to by granularity order
      intro x hx
      have hmem : x ∈ t :: ts := by
        rw [← hsort]
        exact ((List.mergeSort_perm c.allow_downgrade_to _).mem_iff).mpr hx
      rcases List.mem_cons.mp hmem with hxt | hxts
      · rw [hxt]
      · have hpw := @List.sorted_mergeSort (String × String)
          (fun a b => GRAN_ORDER b.2 ≤ GRAN_ORDER a.2)
          (fun a b d hab hbd =>
            decide_eq_true (le_trans (of_decide_eq_true hbd) (of_decide_eq_true hab)))
          (fun a b => by
            rcases le_total (GRAN_ORDER b.2) (GRAN_ORDER a.2) with h | h <;> simp [h])
          c.allow_downgrade_to
        rw [hsort] at hpw
        exact of_decide_eq_true ((List.pairwise_cons.mp hpw).1 x hxts)
    · rw [hstep, writeCells_spec]
      simp [Store.audit]
    · rw [hstep, writeCells_spec]
      simp only [Store.audit]
      rw [List.filter_append, List.filter_append, List.filter_append,
        List.length_append, List.length_append, List.length_append]
      norm_num [List.filter]
      rw [show (decide ("DOWNGRADE_NOTICE" = "DOWNGRADE")) = false from by decide,
        show (decide ("MATERIALIZE" = "DOWNGRADE")) = false from by decide]
      simp

/-- The C6 witness contract: `min_support_threshold = 100`, no pre-authorized
downgrades. -/
def contractC6w : RuntimeContract :=
  ⟨"f", "v1", "CENTRAL", "ITEM", [], "GAUSSIAN", ⟨1, 100⟩, ⟨true, []⟩, ⟨30⟩, [], true⟩

/-- The C6 witness store: one feature with the active contract above, and
two staged cells whose minimum impressions (5) are below the threshold. -/
def storeC6w : Store :=
  ⟨["f"], [⟨"f", "v1", true, contractC6w⟩],
   [⟨"CENTRAL", "f", "ITEM", "W1", "cellA", 1, 5⟩,
    ⟨"CENTRAL", "f", "ITEM", "W1", "cellB", 2, 7⟩],
   [], []⟩

/-- C6 witness: with minimum support 5 below the threshold 100 and an empty
downgrade list, materialization writes nothing and audits
`MIN_SUPPORT_FAIL`. -/
theorem c6_min_support_block_or_single_downgrade_witness :
    (materializeStep (fun _ _ => 0) "CENTRAL" "W1" storeC6w "f").materialized =
      storeC6w.materialized ∧
    (materializeStep (fun _ _ => 0) "CENTRAL" "W1" storeC6w "f").audit_log =
      storeC6w.audit_log ++
        [⟨"BLOCK", "f",
          .obj [("reason", .str "MIN_SUPPORT_FAIL"),
            ("min_support", .int (minImpressions (aggregateCells
              (storeC6w.read_staged "CENTRAL" "f" contractC6w.granularity "W1"))))]⟩] := by
  have h1 : storeC6w.read_active_contract "f" = some contractC6w := by
    simp [Store.read_active_contract, storeC6w]
  have h3 : storeC6w.read_staged "CENTRAL" "f" contractC6w.granularity "W1" ≠ [] := by decide
  have h4 : minImpressions (aggregateCells
      (storeC6w.read_staged "CENTRAL" "f" contractC6w.granularity "W1")) <
      contractC6w.dp_parameters.min_support_threshold := by decide
  exact (c6_min_support_block_or_single_downgrade (fun _ _ => 0) "CENTRAL" "W1" "f"
    storeC6w contractC6w h1 rfl h3 h4).1 rfl
